import Mathlib

/-!
Verification of the ReadTrack hybrid linguistic scoring engine.

This file gives a shallow embedding of the grammar-issue weighted scorer
(the `GrammarScoreCard` component of `src/components/Analyzer.tsx`, which
appears twice in that file), of the input-length validation performed by
`handleAnalyze`, and of the CEFR vocabulary classifier interface, and
proves the specified properties about them.

Numeric computations are modelled over `ℚ`; JavaScript strings are
modelled as Lean `String`s, with the library operations `includes`,
`toLowerCase`, `trim` and `split(/\s+/)` modelled explicitly as
structurally recursive functions on the underlying character lists so
that concrete instances evaluate by `decide`.
-/

/-! ## String operations used by the source -/

/-- Auxiliary: is the first list a prefix of the second? -/
def isPrefixList : List Char → List Char → Bool
  | [], _ => true
  | _ :: _, [] => false
  | a :: as, b :: bs => a = b && isPrefixList as bs

/-- Auxiliary: does `pat` occur as a contiguous sublist of the first list? -/
def containsSubAux : List Char → List Char → Bool
  | [], pat => pat.isEmpty
  | c :: rest, pat => isPrefixList pat (c :: rest) || containsSubAux rest pat

/-- Model of JavaScript `s.includes(pat)`: substring occurrence. -/
def strContains (s pat : String) : Bool :=
  containsSubAux s.data pat.data

/-- Model of JavaScript `s.toLowerCase()` (ASCII case folding). -/
def toLowerStr (s : String) : String :=
  ⟨s.data.map Char.toLower⟩

/-- Auxiliary: split a character list at every whitespace character,
keeping empty pieces (model of splitting on single whitespace characters;
after filtering empties this agrees with JavaScript `split(/\s+/)`). -/
def splitWs : List Char → List (List Char)
  | [] => [[]]
  | c :: rest =>
    if c.isWhitespace then [] :: splitWs rest
    else
      match splitWs rest with
      | [] => [[c]]
      | p :: ps => (c :: p) :: ps

/-- Model of `text.split(/\s+/).filter(w => w.length > 0).length` from
`GrammarScoreCard`: the number of non-empty whitespace-separated words. -/
def countWords (text : String) : Nat :=
  ((splitWs text.data).filter (fun w => w.length > 0)).length

/-- Model of JavaScript `s.trim()`: strip leading and trailing whitespace. -/
def jsTrim (s : String) : String :=
  ⟨((s.data.dropWhile Char.isWhitespace).reverse.dropWhile Char.isWhitespace).reverse⟩

/-! ## Data model: grammar issues and grammar check responses
(`GrammarIssue` and `GrammarCheckResponse` from `src/types.ts`). -/

/-- Structure `GrammarIssue` from `src/types.ts`: `rule_id`, `ai_explanation` and
`ai_suggestion` are optional fields there, the rest are required. -/
structure GrammarIssue where
  type : String
  message : String
  offset : Nat
  length : Nat
  replacements : List String
  context : String
  severity : String
  rule_id : Option String
  ai_explanation : Option String
  ai_suggestion : Option String
deriving DecidableEq

/-- Structure `GrammarCheckResponse` from `src/types.ts`. -/
structure GrammarCheckResponse where
  text : String
  language : String
  detected_language : String
  issues : List GrammarIssue
  issue_count : Nat
  suggestions_count : Nat
  corrected_text : Option String
  ai_overall_feedback : Option String
deriving DecidableEq

/-! ## The weighted grammar scorer
(first copy of `GrammarScoreCard`, `src/components/Analyzer.tsx` lines
191–237). -/

/-- The `typeWeights` record of `GrammarScoreCard`: a finite map from
issue type to type weight, with no entry for other types. -/
def typeWeights : String → Option ℚ := fun t =>
  if t = "spelling" then some 2.0
  else if t = "grammar" then some 1.5
  else if t = "punctuation" then some 0.8
  else if t = "style" then some 0.6
  else if t = "capitalization" then some 0.4
  else none

/-- The `isCapitalizationIssue` test of `GrammarScoreCard`: the lowered
message contains "capital" or "nakamalaking titik", or the rule id (when
present) contains "CAPITALIZATION", "PROPER_NOUN" or "NAME_AFTER". -/
def isCapitalizationIssue (issue : GrammarIssue) : Bool :=
  strContains (toLowerStr issue.message) "capital" ||
  strContains (toLowerStr issue.message) "nakamalaking titik" ||
  (match issue.rule_id with | some r => strContains r "CAPITALIZATION" | none => false) ||
  (match issue.rule_id with | some r => strContains r "PROPER_NOUN" | none => false) ||
  (match issue.rule_id with | some r => strContains r "NAME_AFTER" | none => false)

/-- The body of the `reduce` in `GrammarScoreCard`: the weight one issue
adds to the running sum.  `(typeWeights issue.type).getD 1.0` models
`typeWeights[issue.type] || 1.0` (every table entry is non-zero, so `||`
is exactly default-on-missing-key). -/
def issueWeight (issue : GrammarIssue) : ℚ :=
  let weight : ℚ := if isCapitalizationIssue issue then 0.4 else (typeWeights issue.type).getD 1.0
  if issue.severity = "error" then weight * 1.2
  else if issue.severity = "warning" then weight * 0.8
  else weight * 0.5

/-- Value `weightedErrors` of `GrammarScoreCard`:
`issues.reduce((sum, issue) => sum + weight(issue), 0)`. -/
def weightedErrors (issues : List GrammarIssue) : ℚ :=
  issues.foldl (fun sum issue => sum + issueWeight issue) 0

/-- The final score computation of `GrammarScoreCard` as a function of the
issue list and the word count:
`errorRate = totalWords > 0 ? weightedErrors / totalWords * 100 : 0;`
`grammarScore = Math.max(0, Math.min(100, 100 - errorRate))`. -/
def scoreFromCounts (issues : List GrammarIssue) (totalWords : Nat) : ℚ :=
  let errorRate : ℚ := if totalWords > 0 then weightedErrors issues / totalWords * 100 else 0
  max 0 (min 100 (100 - errorRate))

/-- The grammar score `GrammarScoreCard` computes for a (non-null)
grammar check response. -/
def grammarScore (resp : GrammarCheckResponse) : ℚ :=
  scoreFromCounts resp.issues (countWords resp.text)

/-- The component's behaviour including the `if (!grammarResult) return
null;` guard: `none` input renders nothing (no score). -/
def grammarScoreCard : Option GrammarCheckResponse → Option ℚ
  | none => none
  | some resp => some (grammarScore resp)

/-! ## The second copy of `GrammarScoreCard`
(`src/components/Analyzer.tsx` lines 1733–1774), embedded separately. -/

/-- Copy of `typeWeights` in the second `GrammarScoreCard`. -/
def typeWeightsDup : String → Option ℚ := fun t =>
  if t = "spelling" then some 2.0
  else if t = "grammar" then some 1.5
  else if t = "punctuation" then some 0.8
  else if t = "style" then some 0.6
  else if t = "capitalization" then some 0.4
  else none

/-- Copy of `isCapitalizationIssue` in the second `GrammarScoreCard`. -/
def isCapitalizationIssueDup (issue : GrammarIssue) : Bool :=
  strContains (toLowerStr issue.message) "capital" ||
  strContains (toLowerStr issue.message) "nakamalaking titik" ||
  (match issue.rule_id with | some r => strContains r "CAPITALIZATION" | none => false) ||
  (match issue.rule_id with | some r => strContains r "PROPER_NOUN" | none => false) ||
  (match issue.rule_id with | some r => strContains r "NAME_AFTER" | none => false)

/-- Per-issue weight of the second `GrammarScoreCard` copy. -/
def issueWeightDup (issue : GrammarIssue) : ℚ :=
  let weight : ℚ := if isCapitalizationIssueDup issue then 0.4 else (typeWeightsDup issue.type).getD 1.0
  if issue.severity = "error" then weight * 1.2
  else if issue.severity = "warning" then weight * 0.8
  else weight * 0.5

/-- Copy of `weightedErrors` in the second `GrammarScoreCard`. -/
def weightedErrorsDup (issues : List GrammarIssue) : ℚ :=
  issues.foldl (fun sum issue => sum + issueWeightDup issue) 0

/-- Score computation of the second `GrammarScoreCard` copy. -/
def scoreFromCountsDup (issues : List GrammarIssue) (totalWords : Nat) : ℚ :=
  let errorRate : ℚ := if totalWords > 0 then weightedErrorsDup issues / totalWords * 100 else 0
  max 0 (min 100 (100 - errorRate))

/-- Grammar score computed by the second `GrammarScoreCard` copy. -/
def grammarScoreDup (resp : GrammarCheckResponse) : ℚ :=
  scoreFromCountsDup resp.issues (countWords resp.text)

/-- Second copy including its `if (!grammarResult) return null;` guard. -/
def grammarScoreCardDup : Option GrammarCheckResponse → Option ℚ
  | none => none
  | some resp => some (grammarScoreDup resp)

/-! ## Input validation of `handleAnalyze`
(`src/components/Analyzer.tsx` lines 764–777). -/

/-- Outcome of the validation prologue of `handleAnalyze`: either one of
the two early-return error messages, or proceeding to analysis with the
text to analyze.  Rejection carries no analysis result: the analysis
calls happen only on the `proceed` path. -/
inductive AnalyzeOutcome where
  | emptyInputError : AnalyzeOutcome
  | tooShortError : AnalyzeOutcome
  | proceed : String → AnalyzeOutcome
deriving DecidableEq

/-- The validation prologue of `handleAnalyze`:
`if (!textToAnalyze.trim() && !selectedFile) { …error…; return; }`
`if (!selectedFile && textToAnalyze.trim().length < 15) { …"Text is too
short"…; return; }`, otherwise analysis proceeds on the text. -/
def handleAnalyzeValidation (textToAnalyze : String) (hasSelectedFile : Bool) : AnalyzeOutcome :=
  if jsTrim textToAnalyze = "" && !hasSelectedFile then .emptyInputError
  else if !hasSelectedFile && decide ((jsTrim textToAnalyze).length < 15) then .tooShortError
  else .proceed textToAnalyze

/-! ## CEFR vocabulary classification -/

/-- CEFR word groups (`cefrWordGroups` of `src/types.ts` together with the
band distribution described by the spec's `CEFRWordGroups` entity). -/
structure CEFRWordGroups where
  basic : List String
  independent : List String
  proficient : List String
  distribution : List (String × Nat)
deriving DecidableEq

/-- Modelled from the spec: the static CEFR lexicon of the backend
vocabulary classifier is not part of the frontend sources (only its
callers and documentation are under `src/`); §4.2 requires a static
lexicon keyed by normalized (lower-cased) word form mapping words to
bands A1–C2, and §8 fixes the bands of the scenario words ("the",
"shift", "ubiquitous", "paradigm").  Unknown words have no band. -/
def cefrLexicon : String → Option String := fun w =>
  if w = "the" then some "A1"
  else if w = "cat" then some "A1"
  else if w = "run" then some "A1"
  else if w = "because" then some "A2"
  else if w = "shift" then some "B1"
  else if w = "analyze" then some "B2"
  else if w = "paradigm" then some "C1"
  else if w = "ubiquitous" then some "C2"
  else none

/-- The six CEFR bands, in order. -/
def cefrBands : List String := ["A1", "A2", "B1", "B2", "C1", "C2"]

/-- Modelled from the spec: the backend `classify(words, language) ->
CEFRWordGroups` (§4.2) is not part of the frontend sources.  Per the
spec it is a no-op (all groups empty) unless the language is English;
for English it looks up each unique normalized word in the static
lexicon, groups A1–A2 words as `basic`, B1–B2 as `independent`, C1–C2 as
`proficient` in first-occurrence order, and counts the distribution
across the six bands; unknown words are excluded. -/
def classifyVocabulary (words : List String) (language : String) : CEFRWordGroups :=
  if language = "English" then
    let uniq := (words.map toLowerStr).eraseDups
    { basic := uniq.filter (fun w => (cefrLexicon w).getD "" ∈ (["A1", "A2"] : List String))
      independent := uniq.filter (fun w => (cefrLexicon w).getD "" ∈ (["B1", "B2"] : List String))
      proficient := uniq.filter (fun w => (cefrLexicon w).getD "" ∈ (["C1", "C2"] : List String))
      distribution := cefrBands.map (fun b => (b, (uniq.filter (fun w => (cefrLexicon w).getD "" = b)).length)) }
  else
    { basic := [], independent := [], proficient := []
      distribution := cefrBands.map (fun b => (b, 0)) }

/-- The all-empty CEFR word groups (no words in any tier, zero count in
every band). -/
def emptyCEFRWordGroups : CEFRWordGroups :=
  { basic := [], independent := [], proficient := []
    distribution := cefrBands.map (fun b => (b, 0)) }

/-! ## Specification-side definitions for the scoring formula
(these follow the spec's words, for comparison with the source
embedding above). -/

/-- The spec's fixed type-weight table (§4.5): spelling 2.0, grammar 1.5,
punctuation 0.8, style 0.6, capitalization 0.4; no entry for any other
type. -/
def claimTypeWeight : String → Option ℚ := fun t =>
  if t = "spelling" then some 2.0
  else if t = "grammar" then some 1.5
  else if t = "punctuation" then some 0.8
  else if t = "style" then some 0.6
  else if t = "capitalization" then some 0.4
  else none

/-- The spec's fixed severity multipliers (§4.5): error ×1.2, warning
×0.8, info ×0.5; no entry for any other severity. -/
def claimSeverityMultiplier : String → Option ℚ := fun s =>
  if s = "error" then some 1.2
  else if s = "warning" then some 0.8
  else if s = "info" then some 0.5
  else none

/-- The severity multiplier the source actually applies (the trailing
`if`/`else` chain of the `reduce` body): ×1.2 for `error`, ×0.8 for
`warning`, ×0.5 for anything else. -/
def severityMultiplier : String → ℚ := fun s =>
  if s = "error" then 1.2
  else if s = "warning" then 0.8
  else 0.5

/-- Function `clamp(x, lo, hi)` as the spec writes it. -/
def claimClamp (x lo hi : ℚ) : ℚ := max lo (min hi x)

/-- The spec formula of claim C1, read literally: each issue weighs
`typeWeight(type) × severityMultiplier(severity)` (no capitalization
override), and the score is
`clamp(100 − (Σ weight_i / wordCount) × 100, 0, 100)`. -/
def claimScore (issues : List GrammarIssue) (wordCount : Nat) : ℚ :=
  claimClamp
    (100 - ((issues.map (fun i =>
      (claimTypeWeight i.type).getD 0 * (claimSeverityMultiplier i.severity).getD 0)).sum
        / wordCount) * 100) 0 100

/-- Per-issue weight of the amended claim C1: as `claimScore`, except
that an issue flagged as a capitalization issue (by its message or rule
identifier) uses the capitalization type weight 0.4 in place of its
nominal type's weight. -/
def amendedWeight (i : GrammarIssue) : ℚ :=
  (if isCapitalizationIssue i then 0.4 else (claimTypeWeight i.type).getD 0) *
    (claimSeverityMultiplier i.severity).getD 0

/-- Score of the amended claim C1. -/
def amendedScore (issues : List GrammarIssue) (wordCount : Nat) : ℚ :=
  claimClamp (100 - ((issues.map amendedWeight).sum / wordCount) * 100) 0 100

/-! ## Concrete inputs used by individual theorems -/

/-- Overlapping spelling issue over characters [0, 3) (claim C5's test). -/
def overlapSpellingIssue : GrammarIssue :=
  { type := "spelling", message := "Possible spelling mistake found", offset := 0, length := 3
    replacements := ["The"], context := "", severity := "error"
    rule_id := some "MORFOLOGIK_RULE_EN_US", ai_explanation := none, ai_suggestion := none }

/-- Overlapping grammar issue over characters [2, 8), overlapping the
spelling issue above (claim C5's test). -/
def overlapGrammarIssue : GrammarIssue :=
  { type := "grammar", message := "Possible subject-verb agreement error", offset := 2, length := 6
    replacements := [], context := "", severity := "error"
    rule_id := some "AGREEMENT_SENT_START", ai_explanation := none, ai_suggestion := none }

/-- Grammar check response with a 10-word text carrying the two
overlapping issues above. -/
def overlapResp : GrammarCheckResponse :=
  { text := "the quick brown fox jumps over the lazy dog today"
    language := "en-US", detected_language := "en"
    issues := [overlapSpellingIssue, overlapGrammarIssue]
    issue_count := 2, suggestions_count := 1
    corrected_text := none, ai_overall_feedback := none }

/-- Issue whose nominal type is `spelling` but whose message indicates a
capitalization problem: the scorer's override makes its weight differ
from the claimed `typeWeight(type) × severityMultiplier(severity)`. -/
def c1CapitalizedSpellingIssue : GrammarIssue :=
  { type := "spelling", message := "Capitalize the first word of the sentence"
    offset := 0, length := 3, replacements := ["One"], context := "", severity := "error"
    rule_id := none, ai_explanation := none, ai_suggestion := none }

/-- Grammar check response on a 10-word text with the single
capitalization-flagged spelling issue above. -/
def c1Resp : GrammarCheckResponse :=
  { text := "one two three four five six seven eight nine ten"
    language := "en-US", detected_language := "en"
    issues := [c1CapitalizedSpellingIssue]
    issue_count := 1, suggestions_count := 1
    corrected_text := none, ai_overall_feedback := none }

/-- Spec §8 scenario: "Teh cat is run fast." with one spelling error and
one grammar warning (used as concrete input for the amended claim C1). -/
def scenarioResp : GrammarCheckResponse :=
  { text := "Teh cat is run fast."
    language := "en-US", detected_language := "en"
    issues :=
      [ { type := "spelling", message := "Possible spelling mistake found", offset := 0, length := 3
          replacements := ["The"], context := "", severity := "error"
          rule_id := some "MORFOLOGIK_RULE_EN_US", ai_explanation := none, ai_suggestion := none },
        { type := "grammar", message := "Possible verb form error", offset := 12, length := 2
          replacements := ["runs"], context := "", severity := "warning"
          rule_id := some "VERB_FORM", ai_explanation := none, ai_suggestion := none } ]
    issue_count := 2, suggestions_count := 2
    corrected_text := none, ai_overall_feedback := none }

/-- Issue carrying a flagged capitalization message with severity
`error` (used as concrete input for claim C2). -/
def capFlaggedIssue : GrammarIssue :=
  { type := "grammar", message := "This sentence does not start with a capital letter"
    offset := 0, length := 4, replacements := [], context := "", severity := "error"
    rule_id := some "UPPERCASE_SENTENCE_START", ai_explanation := none, ai_suggestion := none }

/-- Issue with nominal type `grammar` and no capitalization flag (used
as concrete input for claim C2). -/
def plainGrammarIssue : GrammarIssue :=
  { type := "grammar", message := "Possible agreement error", offset := 5, length := 3
    replacements := [], context := "", severity := "warning"
    rule_id := some "AGREEMENT_RULE", ai_explanation := none, ai_suggestion := none }

/-- Issue whose type is outside the weight table and which is not
flagged as capitalization (used as concrete input for claim C9). -/
def typographyIssue : GrammarIssue :=
  { type := "typography", message := "Em dash expected here", offset := 7, length := 1
    replacements := [], context := "", severity := "warning"
    rule_id := some "DASH_RULE", ai_explanation := none, ai_suggestion := none }

/-! ## Helper lemmas -/

/-- Folding the weight accumulation equals summing the mapped weights. -/
lemma foldl_issueWeight_eq (issues : List GrammarIssue) (a : ℚ) :
    issues.foldl (fun sum issue => sum + issueWeight issue) a =
      a + (issues.map issueWeight).sum := by
  induction issues generalizing a with
  | nil => simp
  | cons i rest ih => simp [List.foldl_cons, ih, add_assoc]

/-- The reduce of `GrammarScoreCard` computes the sum of the per-issue
weights. -/
lemma weightedErrors_eq_sum (issues : List GrammarIssue) :
    weightedErrors issues = (issues.map issueWeight).sum := by
  simpa using foldl_issueWeight_eq issues 0

/-- The source's weight table coincides with the spec's weight table. -/
lemma typeWeights_eq_claimTypeWeight : typeWeights = claimTypeWeight := rfl

/-- On issues whose type is in the weight table and whose severity is in
the multiplier table, the source's per-issue weight agrees with the
amended claim's per-issue weight. -/
lemma issueWeight_eq_amendedWeight (i : GrammarIssue)
    (ht : (claimTypeWeight i.type).isSome) (hs : (claimSeverityMultiplier i.severity).isSome) :
    issueWeight i = amendedWeight i := by
  obtain ⟨w, hw⟩ := Option.isSome_iff_exists.mp ht
  obtain ⟨m, hm⟩ := Option.isSome_iff_exists.mp hs
  have htw : typeWeights i.type = some w := by rw [typeWeights_eq_claimTypeWeight]; exact hw
  unfold issueWeight amendedWeight
  rw [htw, hw, hm]
  simp only [Option.getD_some]
  unfold claimSeverityMultiplier at hm
  split_ifs at hm ⊢ <;> simp_all

/-! ## Claim theorems -/

/-- C3: for every issue list and every word count (a natural number, so
necessarily ≥ 0), the computed grammar score lies in [0, 100]. -/
theorem grammarScore_bounds (issues : List GrammarIssue) (totalWords : Nat) :
    0 ≤ scoreFromCounts issues totalWords ∧ scoreFromCounts issues totalWords ≤ 100 := by
  unfold scoreFromCounts
  exact ⟨le_max_left _ _, max_le (by norm_num) (min_le_left _ _)⟩

/-- C4: for every word count n > 0, the empty issue list scores exactly
100. -/
theorem scoreFromCounts_nil_eq_100 (n : Nat) (h : 0 < n) : scoreFromCounts [] n = 100 := by
  unfold scoreFromCounts weightedErrors
  simp [h]

/-- Witness for C4 at the concrete word count 3. -/
theorem scoreFromCounts_nil_eq_100_witness : 0 < 3 ∧ scoreFromCounts [] 3 = 100 :=
  ⟨by norm_num, scoreFromCounts_nil_eq_100 3 (by norm_num)⟩

/-- C6: when the word count is 0, the score is defined as 100 for every
issue list (the guarded branch avoids the division entirely). -/
theorem scoreFromCounts_zero_words (issues : List GrammarIssue) :
    scoreFromCounts issues 0 = 100 := by
  unfold scoreFromCounts
  norm_num [min_def, max_def]

/-- C5: the two overlapping issues of `overlapResp` (types `spelling`
and `grammar`, both severity `error`, character ranges [0,3) and [2,8)
overlapping, on a 10-word text) each contribute their full weight, so
the score is 100 − ((2.0·1.2 + 1.5·1.2)/10)·100 = 58. -/
theorem overlap_independence_score :
    overlapGrammarIssue.offset < overlapSpellingIssue.offset + overlapSpellingIssue.length ∧
    countWords overlapResp.text = 10 ∧
    grammarScore overlapResp = 58 := by
  refine ⟨by decide, by decide, ?_⟩
  have hw : countWords "the quick brown fox jumps over the lazy dog today" = 10 := by decide
  simp +decide [grammarScore, scoreFromCounts, weightedErrors, issueWeight, typeWeights,
    overlapResp, overlapSpellingIssue, overlapGrammarIssue, hw]
  norm_num [min_def, max_def]

/-- C10: the two duplicated `GrammarScoreCard` implementations compute
equal grammar scores on every input (including the null guard). -/
theorem grammarScoreCard_copies_agree (o : Option GrammarCheckResponse) :
    grammarScoreCard o = grammarScoreCardDup o := by
  cases o <;> rfl

/-- C1, counterexample: on `c1Resp` — whose single issue has nominal
type `spelling` and severity `error`, both inside the claim's tables —
the score the code computes differs from the claim's formula
`clamp(100 − (Σ typeWeight(type)·severityMultiplier(severity) / wordCount)·100, 0, 100)`,
because the issue's message flags capitalization and the code overrides
the type weight: the code yields 95.2 while the claimed formula yields 76. -/
theorem grammarScore_ne_claim_formula :
    (∀ i ∈ c1Resp.issues,
      (claimTypeWeight i.type).isSome ∧ (claimSeverityMultiplier i.severity).isSome) ∧
    grammarScore c1Resp ≠ claimScore c1Resp.issues (countWords c1Resp.text) := by
  constructor
  · decide
  · have hw : countWords "one two three four five six seven eight nine ten" = 10 := by decide
    have h1 : grammarScore c1Resp = 476/5 := by
      simp +decide [grammarScore, scoreFromCounts, weightedErrors, issueWeight, typeWeights,
        c1Resp, c1CapitalizedSpellingIssue, hw]
      norm_num [min_def, max_def]
    have h2 : claimScore c1Resp.issues (countWords c1Resp.text) = 76 := by
      simp [claimScore, claimClamp, claimTypeWeight, claimSeverityMultiplier,
        c1Resp, c1CapitalizedSpellingIssue, hw]
      norm_num [min_def, max_def]
    rw [h1, h2]
    norm_num

/-- C1, amended: for every grammar check response whose issue types are
all in the weight table and whose severities are all in the multiplier
table, the computed grammar score equals
`clamp(100 − (Σ w_i / wordCount)·100, 0, 100)` where
`w_i = typeWeight(type_i) × severityMultiplier(severity_i)` except that
an issue whose message or rule identifier indicates a capitalization
problem uses the capitalization type weight 0.4 in place of its nominal
type's weight, and `wordCount` is the number of non-empty
whitespace-separated words of the checked text. -/
theorem grammarScore_amended_formula (resp : GrammarCheckResponse)
    (h : ∀ i ∈ resp.issues,
      (claimTypeWeight i.type).isSome ∧ (claimSeverityMultiplier i.severity).isSome) :
    grammarScore resp = amendedScore resp.issues (countWords resp.text) := by
  have hsum : weightedErrors resp.issues = (resp.issues.map amendedWeight).sum := by
    rw [weightedErrors_eq_sum]
    exact congrArg List.sum
      (List.map_congr_left fun i hi => issueWeight_eq_amendedWeight i (h i hi).1 (h i hi).2)
  unfold grammarScore scoreFromCounts amendedScore claimClamp
  rw [hsum]
  by_cases hn : countWords resp.text > 0
  · simp [hn]
  · have h0 : countWords resp.text = 0 := Nat.le_zero.mp (not_lt.mp hn)
    simp [hn, h0]

/-- Witness for the amended C1 on the spec §8 scenario response. -/
theorem grammarScore_amended_formula_witness :
    (∀ i ∈ scenarioResp.issues,
      (claimTypeWeight i.type).isSome ∧ (claimSeverityMultiplier i.severity).isSome) ∧
    grammarScore scenarioResp = amendedScore scenarioResp.issues (countWords scenarioResp.text) :=
  ⟨by decide, grammarScore_amended_formula scenarioResp (by decide)⟩

/-- C2: an issue flagged as a capitalization problem (by its message or
rule identifier) is weighted with the capitalization type weight 0.4
before the severity multiplier, whatever its nominal type; an unflagged
issue uses its nominal type's table weight. -/
theorem issueWeight_capitalization_override (issue : GrammarIssue) :
    (isCapitalizationIssue issue = true →
      issueWeight issue = 0.4 * severityMultiplier issue.severity) ∧
    (∀ w : ℚ, isCapitalizationIssue issue = false → typeWeights issue.type = some w →
      issueWeight issue = w * severityMultiplier issue.severity) := by
  constructor
  · intro h
    unfold issueWeight severityMultiplier
    simp only [h, if_true]
    split_ifs <;> rfl
  · intro w h hw
    unfold issueWeight severityMultiplier
    simp only [h, hw, Bool.false_eq_true, if_false, Option.getD_some]
    split_ifs <;> rfl

/-- Witness for C2: the flagged issue (nominal type `grammar`) gets the
capitalization weight, the unflagged `grammar` issue gets the grammar
table weight. -/
theorem issueWeight_capitalization_override_witness :
    issueWeight capFlaggedIssue = 0.4 * severityMultiplier capFlaggedIssue.severity ∧
    issueWeight plainGrammarIssue = 1.5 * severityMultiplier plainGrammarIssue.severity :=
  ⟨(issueWeight_capitalization_override capFlaggedIssue).1 (by decide),
   (issueWeight_capitalization_override plainGrammarIssue).2 1.5 (by decide) rfl⟩

/-- C9: an issue whose type is outside the weight table and which is not
flagged as a capitalization issue is weighted with the default type
weight 1.0 before the severity multiplier. -/
theorem issueWeight_default_type (issue : GrammarIssue)
    (h1 : typeWeights issue.type = none) (h2 : isCapitalizationIssue issue = false) :
    issueWeight issue = 1.0 * severityMultiplier issue.severity := by
  unfold issueWeight severityMultiplier
  simp only [h1, h2, Bool.false_eq_true, if_false, Option.getD_none]
  split_ifs <;> rfl

/-- Witness for C9 at the `typography` issue. -/
theorem issueWeight_default_type_witness :
    typeWeights typographyIssue.type = none ∧
    isCapitalizationIssue typographyIssue = false ∧
    issueWeight typographyIssue = 1.0 * severityMultiplier typographyIssue.severity :=
  ⟨rfl, by decide, issueWeight_default_type typographyIssue rfl (by decide)⟩

/-- C7: the validation prologue of `handleAnalyze` returns the "text too
short" error only when no file is attached and the trimmed text is
shorter than 15 characters, and text whose trimmed length is at least 15
is never rejected for length.  Rejection is an early return carrying no
analysis: analysis runs only on the `proceed` outcome. -/
theorem handleAnalyzeValidation_tooShort (text : String) (hasFile : Bool) :
    (handleAnalyzeValidation text hasFile = .tooShortError →
      hasFile = false ∧ (jsTrim text).length < 15) ∧
    (15 ≤ (jsTrim text).length →
      handleAnalyzeValidation text hasFile ≠ .tooShortError) := by
  constructor
  · intro h
    unfold handleAnalyzeValidation at h
    split_ifs at h with h1 h2
    simp only [Bool.and_eq_true, Bool.not_eq_true', decide_eq_true_eq] at h2
    exact ⟨h2.1, h2.2⟩
  · intro hlen h
    unfold handleAnalyzeValidation at h
    split_ifs at h with h1 h2
    simp only [Bool.and_eq_true, Bool.not_eq_true', decide_eq_true_eq] at h2
    exact absurd h2.2 (not_lt.mpr hlen)

/-- Witness for C7: the 8-character input "hi there" without a file is
rejected as too short; a 30-character input is not. -/
theorem handleAnalyzeValidation_tooShort_witness :
    (false = false ∧ (jsTrim "hi there").length < 15) ∧
    handleAnalyzeValidation "a sufficiently long input text" false ≠ .tooShortError :=
  ⟨(handleAnalyzeValidation_tooShort "hi there" false).1 (by decide),
   (handleAnalyzeValidation_tooShort "a sufficiently long input text" false).2 (by decide)⟩

/-- C8: classifying vocabulary with any non-English language (for
example Filipino) returns the all-empty CEFR word groups, regardless of
the word list. -/
theorem classifyVocabulary_non_english (words : List String) (language : String)
    (h : language ≠ "English") :
    classifyVocabulary words language = emptyCEFRWordGroups := by
  unfold classifyVocabulary emptyCEFRWordGroups
  simp [h]

/-- Witness for C8: Filipino classification of words that would be tiered
in English still yields the empty groups. -/
theorem classifyVocabulary_non_english_witness :
    ("Filipino" ≠ "English") ∧
    classifyVocabulary ["ubiquitous", "paradigm", "the"] "Filipino" = emptyCEFRWordGroups :=
  ⟨by decide, classifyVocabulary_non_english ["ubiquitous", "paradigm", "the"] "Filipino" (by decide)⟩
